import Mathlib

/-!
Shallow embedding of `crates/uv-pypi-types/src/conflicts.rs`.

The module declares conflicting sets of extras/groups: `Conflicts` is a list
of `ConflictSet`s, each a validated (length >= 2) list of `ConflictItem`s.
A flat optional-field wire record `ConflictItemWire` bridges serialization for
both the internal (`ConflictItem`) and schema (`SchemaConflictItem`) forms.

Rust `Vec` becomes `List`; fallible conversions (`TryFrom`) become `Except`;
the internal `.unwrap()` in `SchemaConflicts::to_conflicts_with_package_name`
is modelled by an `Option` result where `none` stands for the panic path.
The identifier types `PackageName`, `ExtraName`, `GroupName` come from the
external crate `uv-normalize` and are modelled as opaque string wrappers with
structural (derived) equality, as the source assumes of them.
-/

/-- External identifier type `uv_normalize::PackageName` (validated, ordered,
hashable value type; modelled as a string wrapper with structural equality). -/
structure PackageName where
  name : String
deriving DecidableEq, Repr

/-- External identifier type `uv_normalize::ExtraName`. -/
structure ExtraName where
  name : String
deriving DecidableEq, Repr

/-- External identifier type `uv_normalize::GroupName`. -/
structure GroupName where
  name : String
deriving DecidableEq, Repr

/-- `enum ConflictKind { Extra(ExtraName), Group(GroupName) }`. -/
inductive ConflictKind where
  | Extra (extra : ExtraName)
  | Group (group : GroupName)
deriving DecidableEq, Repr

/-- `ConflictKind::extra`: the extra name when the kind is an extra. -/
def ConflictKind.extra : ConflictKind → Option ExtraName
  | .Extra e => some e
  | .Group _ => none

/-- `ConflictKind::group`: the group name when the kind is a group. -/
def ConflictKind.group : ConflictKind → Option GroupName
  | .Group g => some g
  | .Extra _ => none

/-- `enum ConflictKindRef<'a>`: the borrowed mirror of `ConflictKind`.
Borrowing has no counterpart in the embedding, so the payloads are the same
value types; the type stays separate to model the owned/borrowed duality. -/
inductive ConflictKindRef where
  | Extra (extra : ExtraName)
  | Group (group : GroupName)
deriving DecidableEq, Repr

/-- `ConflictKind::as_ref`. -/
def ConflictKind.asRef : ConflictKind → ConflictKindRef
  | .Extra e => .Extra e
  | .Group g => .Group g

/-- `ConflictKindRef::to_owned`. -/
def ConflictKindRef.toOwned : ConflictKindRef → ConflictKind
  | .Extra e => .Extra e
  | .Group g => .Group g

/-- `struct ConflictItem { package: PackageName, kind: ConflictKind }`. -/
structure ConflictItem where
  package : PackageName
  kind : ConflictKind
deriving DecidableEq, Repr

/-- `struct ConflictItemRef<'a>`: the borrowed mirror of `ConflictItem`. -/
structure ConflictItemRef where
  package : PackageName
  kind : ConflictKindRef
deriving DecidableEq, Repr

/-- `ConflictItem::as_ref`. -/
def ConflictItem.asRef (item : ConflictItem) : ConflictItemRef :=
  { package := item.package, kind := item.kind.asRef }

/-- `ConflictItemRef::to_owned`. -/
def ConflictItemRef.toOwned (r : ConflictItemRef) : ConflictItem :=
  { package := r.package, kind := r.kind.toOwned }

/-- `hashbrown::Equivalent<ConflictItem> for ConflictItemRef`:
`fn equivalent(&self, key: &ConflictItem) -> bool { key.as_ref() == *self }`,
where `==` is the derived structural equality. -/
def ConflictItemRef.equivalent (self : ConflictItemRef) (key : ConflictItem) : Bool :=
  decide (key.asRef = self)

/-- `From<(PackageName, ExtraName)> for ConflictItem`. -/
def ConflictItem.fromPackageExtra (package : PackageName) (extra : ExtraName) : ConflictItem :=
  { package := package, kind := .Extra extra }

/-- `From<(PackageName, GroupName)> for ConflictItem`. -/
def ConflictItem.fromPackageGroup (package : PackageName) (group : GroupName) : ConflictItem :=
  { package := package, kind := .Group group }

/-- `enum ConflictError` (thiserror): the closed validation error taxonomy. -/
inductive ConflictError where
  | ZeroItems
  | OneItem
  | MissingPackage
  | MissingExtraAndGroup
  | FoundExtraAndGroup
deriving DecidableEq, Repr

/-- The `#[error(...)]` display strings of `ConflictError` (thiserror). -/
def ConflictError.message : ConflictError → String
  | .ZeroItems => "Each set of conflicts must have at least two entries, but found none"
  | .OneItem => "Each set of conflicts must have at least two entries, but found only one"
  | .MissingPackage => "Expected `package` field in conflicting entry"
  | .MissingExtraAndGroup => "Expected `extra` or `group` field in conflicting entry"
  | .FoundExtraAndGroup => "Expected one of `extra` or `group` in conflicting entry, but found both"

/-- `struct ConflictSet(Vec<ConflictItem>)`. -/
structure ConflictSet where
  items : List ConflictItem
deriving DecidableEq, Repr

/-- Derived `Default` for `ConflictSet`: `Vec::default()` is the empty vector. -/
def ConflictSet.defaultValue : ConflictSet :=
  { items := [] }

/-- `ConflictSet::pair`. -/
def ConflictSet.pair (item1 item2 : ConflictItem) : ConflictSet :=
  { items := [item1, item2] }

/-- `ConflictSet::push` (`Vec::push` appends at the end). -/
def ConflictSet.push (s : ConflictSet) (item : ConflictItem) : ConflictSet :=
  { items := s.items ++ [item] }

/-- `ConflictSet::contains`: linear scan comparing package and kind.
The source compares `*set.kind() == kind` through
`PartialEq<ConflictKindRef> for ConflictKind`, i.e. `self.as_ref() == *other`. -/
def ConflictSet.contains (s : ConflictSet) (package : PackageName)
    (kind : ConflictKindRef) : Bool :=
  s.items.any fun item =>
    decide (item.package = package) && decide (item.kind.asRef = kind)

/-- `TryFrom<Vec<ConflictItem>> for ConflictSet`: the match on `items.len()`
with arms `0`, `1`, `_`. -/
def ConflictSet.tryFrom (items : List ConflictItem) : Except ConflictError ConflictSet :=
  if items.length = 0 then .error .ZeroItems
  else if items.length = 1 then .error .OneItem
  else .ok { items := items }

/-- `struct Conflicts(Vec<ConflictSet>)`. -/
structure Conflicts where
  sets : List ConflictSet
deriving DecidableEq, Repr

/-- Derived `Default` for `Conflicts`. -/
def Conflicts.defaultValue : Conflicts :=
  { sets := [] }

/-- `Conflicts::empty`, defined as `Conflicts::default()`. -/
def Conflicts.empty : Conflicts :=
  Conflicts.defaultValue

/-- `Conflicts::push`. -/
def Conflicts.push (c : Conflicts) (set : ConflictSet) : Conflicts :=
  { sets := c.sets ++ [set] }

/-- `Conflicts::contains`: true iff any contained set contains the pair. -/
def Conflicts.contains (c : Conflicts) (package : PackageName)
    (kind : ConflictKindRef) : Bool :=
  c.sets.any fun set => set.contains package kind

/-- `Conflicts::is_empty`. -/
def Conflicts.isEmpty (c : Conflicts) : Bool :=
  c.sets.isEmpty

/-- `Conflicts::append(&mut self, other: &mut Conflicts)` uses `Vec::append`,
which moves all of `other`'s sets onto the end of `self` and leaves `other`
empty. Modelled as returning the pair (new self, new other). -/
def Conflicts.append (self other : Conflicts) : Conflicts × Conflicts :=
  ({ sets := self.sets ++ other.sets }, { sets := [] })

/-- `struct ConflictItemWire { package: Option<..>, extra: Option<..>,
group: Option<..> }`, each field `#[serde(default)]`. -/
structure ConflictItemWire where
  package : Option PackageName
  extra : Option ExtraName
  group : Option GroupName
deriving DecidableEq, Repr

/-- `TryFrom<ConflictItemWire> for ConflictItem`: the `package` field is
required first; then exactly one of `extra`/`group` must be present. -/
def ConflictItem.tryFrom (wire : ConflictItemWire) : Except ConflictError ConflictItem :=
  match wire.package with
  | none => .error .MissingPackage
  | some package =>
    match wire.extra, wire.group with
    | none, none => .error .MissingExtraAndGroup
    | some _, some _ => .error .FoundExtraAndGroup
    | some extra, none => .ok (ConflictItem.fromPackageExtra package extra)
    | none, some group => .ok (ConflictItem.fromPackageGroup package group)

/-- `From<ConflictItem> for ConflictItemWire`: total projection of the kind
into the corresponding optional field. -/
def ConflictItem.intoWire (item : ConflictItem) : ConflictItemWire :=
  match item.kind with
  | .Extra extra => { package := some item.package, extra := some extra, group := none }
  | .Group group => { package := some item.package, extra := none, group := some group }

/-- `struct SchemaConflictItem { package: Option<PackageName>, kind: ConflictKind }`. -/
structure SchemaConflictItem where
  package : Option PackageName
  kind : ConflictKind
deriving DecidableEq, Repr

/-- `TryFrom<ConflictItemWire> for SchemaConflictItem`: `package` passes
through as-is; exactly one of `extra`/`group` must be present. -/
def SchemaConflictItem.tryFrom (wire : ConflictItemWire) : Except ConflictError SchemaConflictItem :=
  match wire.extra, wire.group with
  | none, none => .error .MissingExtraAndGroup
  | some _, some _ => .error .FoundExtraAndGroup
  | some extra, none => .ok { package := wire.package, kind := .Extra extra }
  | none, some group => .ok { package := wire.package, kind := .Group group }

/-- `From<SchemaConflictItem> for ConflictItemWire`. -/
def SchemaConflictItem.intoWire (item : SchemaConflictItem) : ConflictItemWire :=
  match item.kind with
  | .Extra extra => { package := item.package, extra := some extra, group := none }
  | .Group group => { package := item.package, extra := none, group := some group }

/-- `struct SchemaConflictSet(Vec<SchemaConflictItem>)`. -/
structure SchemaConflictSet where
  items : List SchemaConflictItem
deriving DecidableEq, Repr

/-- Derived `Default` for `SchemaConflictSet`. -/
def SchemaConflictSet.defaultValue : SchemaConflictSet :=
  { items := [] }

/-- `TryFrom<Vec<SchemaConflictItem>> for SchemaConflictSet`. -/
def SchemaConflictSet.tryFrom (items : List SchemaConflictItem) :
    Except ConflictError SchemaConflictSet :=
  if items.length = 0 then .error .ZeroItems
  else if items.length = 1 then .error .OneItem
  else .ok { items := items }

/-- `struct SchemaConflicts(Vec<SchemaConflictSet>)`. -/
structure SchemaConflicts where
  sets : List SchemaConflictSet
deriving DecidableEq, Repr

/-- The body of the inner loop of
`SchemaConflicts::to_conflicts_with_package_name`:
`item.package.clone().unwrap_or_else(|| package.clone())` paired with the
item's kind. -/
def SchemaConflictItem.resolve (item : SchemaConflictItem) (package : PackageName) : ConflictItem :=
  { package := item.package.getD package, kind := item.kind }

/-- The loop of `SchemaConflicts::to_conflicts_with_package_name`: each schema
set is mapped itemwise and rebuilt via `ConflictSet::try_from(set).unwrap()`.
`none` models the panic of the `.unwrap()` when the mapped set has < 2 items. -/
def resolveSchemaSets (package : PackageName) : List SchemaConflictSet → Option (List ConflictSet)
  | [] => some []
  | toolUvSet :: rest =>
    match ConflictSet.tryFrom (toolUvSet.items.map fun item => item.resolve package) with
    | .error _ => none
    | .ok cset =>
      match resolveSchemaSets package rest with
      | none => none
      | some csets => some (cset :: csets)

/-- `SchemaConflicts::to_conflicts_with_package_name`. The source signature is
infallible (`-> Conflicts`) but contains an `.unwrap()`; `none` models that
panic path. Pushing each set onto `Conflicts::empty()` in loop order builds
exactly the in-order list of resolved sets. -/
def SchemaConflicts.toConflictsWithPackageName (self : SchemaConflicts)
    (package : PackageName) : Option Conflicts :=
  match resolveSchemaSets package self.sets with
  | none => none
  | some sets => some { sets := sets }

/-- Elementwise deserialization of a `Vec<ConflictItem>` from wire records
(serde sequence semantics: the first element error aborts). -/
def tryItemsFromWires : List ConflictItemWire → Except ConflictError (List ConflictItem)
  | [] => .ok []
  | w :: rest =>
    match ConflictItem.tryFrom w with
    | .error e => .error e
    | .ok item =>
      match tryItemsFromWires rest with
      | .error e => .error e
      | .ok items => .ok (item :: items)

/-- The custom `Deserialize for ConflictSet`: deserialize a
`Vec<ConflictItem>` then apply `TryFrom`. -/
def ConflictSet.deserializeWires (wires : List ConflictItemWire) :
    Except ConflictError ConflictSet :=
  match tryItemsFromWires wires with
  | .error e => .error e
  | .ok items => ConflictSet.tryFrom items

/-- Derived `Serialize for ConflictSet`: each item serializes through
`into = "ConflictItemWire"`. -/
def ConflictSet.serializeWires (s : ConflictSet) : List ConflictItemWire :=
  s.items.map ConflictItem.intoWire

/-- Elementwise deserialization of a `Vec<ConflictSet>`. -/
def trySetsFromWires : List (List ConflictItemWire) → Except ConflictError (List ConflictSet)
  | [] => .ok []
  | ws :: rest =>
    match ConflictSet.deserializeWires ws with
    | .error e => .error e
    | .ok set =>
      match trySetsFromWires rest with
      | .error e => .error e
      | .ok sets => .ok (set :: sets)

/-- Derived `Deserialize for Conflicts` (`Vec<ConflictSet>`). -/
def Conflicts.deserializeWires (wss : List (List ConflictItemWire)) :
    Except ConflictError Conflicts :=
  match trySetsFromWires wss with
  | .error e => .error e
  | .ok sets => .ok { sets := sets }

/-- Derived `Serialize for Conflicts`. -/
def Conflicts.serializeWires (c : Conflicts) : List (List ConflictItemWire) :=
  c.sets.map ConflictSet.serializeWires

/-- Elementwise deserialization of a `Vec<SchemaConflictItem>`. -/
def trySchemaItemsFromWires : List ConflictItemWire → Except ConflictError (List SchemaConflictItem)
  | [] => .ok []
  | w :: rest =>
    match SchemaConflictItem.tryFrom w with
    | .error e => .error e
    | .ok item =>
      match trySchemaItemsFromWires rest with
      | .error e => .error e
      | .ok items => .ok (item :: items)

/-- The custom `Deserialize for SchemaConflictSet`. -/
def SchemaConflictSet.deserializeWires (wires : List ConflictItemWire) :
    Except ConflictError SchemaConflictSet :=
  match trySchemaItemsFromWires wires with
  | .error e => .error e
  | .ok items => SchemaConflictSet.tryFrom items

/-- Derived `Serialize for SchemaConflictSet`. -/
def SchemaConflictSet.serializeWires (s : SchemaConflictSet) : List ConflictItemWire :=
  s.items.map SchemaConflictItem.intoWire

/-- Elementwise deserialization of a `Vec<SchemaConflictSet>`. -/
def trySchemaSetsFromWires : List (List ConflictItemWire) →
    Except ConflictError (List SchemaConflictSet)
  | [] => .ok []
  | ws :: rest =>
    match SchemaConflictSet.deserializeWires ws with
    | .error e => .error e
    | .ok set =>
      match trySchemaSetsFromWires rest with
      | .error e => .error e
      | .ok sets => .ok (set :: sets)

/-- Derived `Deserialize for SchemaConflicts` (`Vec<SchemaConflictSet>`). -/
def SchemaConflicts.deserializeWires (wss : List (List ConflictItemWire)) :
    Except ConflictError SchemaConflicts :=
  match trySchemaSetsFromWires wss with
  | .error e => .error e
  | .ok sets => .ok { sets := sets }

/-- Derived `Serialize for SchemaConflicts`. -/
def SchemaConflicts.serializeWires (sc : SchemaConflicts) : List (List ConflictItemWire) :=
  sc.sets.map SchemaConflictSet.serializeWires

/-- Field-map deserialization of `ConflictItemWire`, modelling the serde
`Deserialize` derived on the wire struct itself. A raw record is a list of
(field name, field value) pairs. The derive on `ConflictItemWire` carries NO
`deny_unknown_fields` attribute, so serde's default applies: an unknown key is
skipped (`IgnoredAny`). A repeated known key is a `duplicate field` error.
A missing field falls back to `#[serde(default)]`, i.e. `None`. The
`deny_unknown_fields` attributes on `ConflictItem` and `SchemaConflictItem`
are never consulted: with `#[serde(try_from = "ConflictItemWire")]` the
derived deserializer only forwards to the wire type's deserializer. -/
def deserializeWireFieldsLoop : List (String × String) → Option PackageName →
    Option ExtraName → Option GroupName → Except String ConflictItemWire
  | [], p, e, g => .ok { package := p, extra := e, group := g }
  | (key, value) :: rest, p, e, g =>
    if key = "package" then
      match p with
      | some _ => .error "duplicate field package"
      | none => deserializeWireFieldsLoop rest (some { name := value }) e g
    else if key = "extra" then
      match e with
      | some _ => .error "duplicate field extra"
      | none => deserializeWireFieldsLoop rest p (some { name := value }) g
    else if key = "group" then
      match g with
      | some _ => .error "duplicate field group"
      | none => deserializeWireFieldsLoop rest p e (some { name := value })
    else
      deserializeWireFieldsLoop rest p e g

/-- Entry point of the wire struct's field-map deserializer. -/
def ConflictItemWire.deserializeFields (fields : List (String × String)) :
    Except String ConflictItemWire :=
  deserializeWireFieldsLoop fields none none none

/-- Derived `Deserialize for ConflictItem` with
`#[serde(try_from = "ConflictItemWire")]`: deserialize the wire record, then
`try_from`, mapping the error through its display string. -/
def ConflictItem.deserializeFields (fields : List (String × String)) :
    Except String ConflictItem :=
  match ConflictItemWire.deserializeFields fields with
  | .error e => .error e
  | .ok w =>
    match ConflictItem.tryFrom w with
    | .error e => .error e.message
    | .ok item => .ok item

/-- Derived `Deserialize for SchemaConflictItem` with
`#[serde(try_from = "ConflictItemWire")]`. -/
def SchemaConflictItem.deserializeFields (fields : List (String × String)) :
    Except String SchemaConflictItem :=
  match ConflictItemWire.deserializeFields fields with
  | .error e => .error e
  | .ok w =>
    match SchemaConflictItem.tryFrom w with
    | .error e => .error e.message
    | .ok item => .ok item

/-- Concrete sample values used by witness theorems. -/
def samplePackageA : PackageName := { name := "a" }

def samplePackageB : PackageName := { name := "b" }

def sampleExtraX : ExtraName := { name := "x" }

def sampleExtraY : ExtraName := { name := "y" }

def sampleGroupG : GroupName := { name := "g" }

def sampleItemA : ConflictItem := { package := samplePackageA, kind := .Extra sampleExtraX }

def sampleItemB : ConflictItem := { package := samplePackageB, kind := .Group sampleGroupG }

def sampleSchemaItemX : SchemaConflictItem := { package := none, kind := .Extra sampleExtraX }

def sampleSchemaItemY : SchemaConflictItem :=
  { package := some samplePackageB, kind := .Extra sampleExtraY }

/-! ### Helper lemmas -/

theorem ConflictSet.tryFrom_eq_ok (items : List ConflictItem) (h : 2 ≤ items.length) :
    ConflictSet.tryFrom items = .ok { items := items } := by
  unfold ConflictSet.tryFrom
  rw [if_neg (by omega), if_neg (by omega)]

theorem ConflictSet.tryFrom_ok_inv {items : List ConflictItem} {s : ConflictSet}
    (h : ConflictSet.tryFrom items = .ok s) :
    2 ≤ items.length ∧ s = { items := items } := by
  unfold ConflictSet.tryFrom at h
  by_cases h0 : items.length = 0
  · rw [if_pos h0] at h; exact absurd h (by simp)
  · rw [if_neg h0] at h
    by_cases h1 : items.length = 1
    · rw [if_pos h1] at h; exact absurd h (by simp)
    · rw [if_neg h1] at h
      refine ⟨by omega, ?_⟩
      exact (Except.ok.inj h).symm

theorem SchemaConflictSet.schemaTryFrom_eq_ok (items : List SchemaConflictItem)
    (h : 2 ≤ items.length) :
    SchemaConflictSet.tryFrom items = .ok { items := items } := by
  unfold SchemaConflictSet.tryFrom
  rw [if_neg (by omega), if_neg (by omega)]

theorem SchemaConflictSet.schemaTryFrom_ok_inv {items : List SchemaConflictItem}
    {s : SchemaConflictSet} (h : SchemaConflictSet.tryFrom items = .ok s) :
    2 ≤ items.length ∧ s = { items := items } := by
  unfold SchemaConflictSet.tryFrom at h
  by_cases h0 : items.length = 0
  · rw [if_pos h0] at h; exact absurd h (by simp)
  · rw [if_neg h0] at h
    by_cases h1 : items.length = 1
    · rw [if_pos h1] at h; exact absurd h (by simp)
    · rw [if_neg h1] at h
      refine ⟨by omega, ?_⟩
      exact (Except.ok.inj h).symm

theorem ConflictItem.tryFrom_intoWire (item : ConflictItem) :
    ConflictItem.tryFrom item.intoWire = .ok item := by
  rcases item with ⟨package, kind⟩
  cases kind <;> rfl

theorem SchemaConflictItem.schemaTryFrom_intoWire (item : SchemaConflictItem) :
    SchemaConflictItem.tryFrom item.intoWire = .ok item := by
  rcases item with ⟨package, kind⟩
  cases kind <;> rfl

theorem tryItemsFromWires_map_intoWire (items : List ConflictItem) :
    tryItemsFromWires (items.map ConflictItem.intoWire) = .ok items := by
  induction items with
  | nil => rfl
  | cons i rest ih =>
    simp [tryItemsFromWires, ConflictItem.tryFrom_intoWire, ih]

theorem trySchemaItemsFromWires_map_intoWire (items : List SchemaConflictItem) :
    trySchemaItemsFromWires (items.map SchemaConflictItem.intoWire) = .ok items := by
  induction items with
  | nil => rfl
  | cons i rest ih =>
    simp [trySchemaItemsFromWires, SchemaConflictItem.schemaTryFrom_intoWire, ih]

theorem ConflictSet.deserialize_serialize (s : ConflictSet) (h : 2 ≤ s.items.length) :
    ConflictSet.deserializeWires s.serializeWires = .ok s := by
  rcases s with ⟨items⟩
  simp only [ConflictSet.deserializeWires, ConflictSet.serializeWires,
    tryItemsFromWires_map_intoWire]
  exact ConflictSet.tryFrom_eq_ok items h

theorem SchemaConflictSet.schemaDeserialize_serialize (s : SchemaConflictSet)
    (h : 2 ≤ s.items.length) :
    SchemaConflictSet.deserializeWires s.serializeWires = .ok s := by
  rcases s with ⟨items⟩
  simp only [SchemaConflictSet.deserializeWires, SchemaConflictSet.serializeWires,
    trySchemaItemsFromWires_map_intoWire]
  exact SchemaConflictSet.schemaTryFrom_eq_ok items h

theorem trySetsFromWires_map_serialize (sets : List ConflictSet)
    (h : ∀ s ∈ sets, 2 ≤ s.items.length) :
    trySetsFromWires (sets.map ConflictSet.serializeWires) = .ok sets := by
  induction sets with
  | nil => rfl
  | cons s rest ih =>
    have hs := ConflictSet.deserialize_serialize s (h s (by simp))
    have hrest := ih fun t ht => h t (by simp [ht])
    simp [trySetsFromWires, hs, hrest]

theorem trySchemaSetsFromWires_map_serialize (sets : List SchemaConflictSet)
    (h : ∀ s ∈ sets, 2 ≤ s.items.length) :
    trySchemaSetsFromWires (sets.map SchemaConflictSet.serializeWires) = .ok sets := by
  induction sets with
  | nil => rfl
  | cons s rest ih =>
    have hs := SchemaConflictSet.schemaDeserialize_serialize s (h s (by simp))
    have hrest := ih fun t ht => h t (by simp [ht])
    simp [trySchemaSetsFromWires, hs, hrest]

theorem resolveSchemaSets_eq_some (package : PackageName) (l : List SchemaConflictSet)
    (h : ∀ s ∈ l, 2 ≤ s.items.length) :
    resolveSchemaSets package l =
      some (l.map fun s => { items := s.items.map fun item => item.resolve package }) := by
  induction l with
  | nil => rfl
  | cons s rest ih =>
    have h1 : 2 ≤ (s.items.map fun item => item.resolve package).length := by
      simpa using h s (by simp)
    have hrest := ih fun t ht => h t (by simp [ht])
    simp [resolveSchemaSets, ConflictSet.tryFrom_eq_ok _ h1, hrest]

theorem resolveSchemaSets_some_inv (package : PackageName) :
    ∀ (l : List SchemaConflictSet) (sets : List ConflictSet),
      resolveSchemaSets package l = some sets →
      sets = (l.map fun s => { items := s.items.map fun item => item.resolve package }) ∧
        ∀ s ∈ l, 2 ≤ s.items.length
  | [], sets => by
    intro h
    simp only [resolveSchemaSets, Option.some.injEq] at h
    simp [← h]
  | s :: rest, sets => by
    intro h
    unfold resolveSchemaSets at h
    rcases hcs : ConflictSet.tryFrom (s.items.map fun item => item.resolve package) with e | cset
    · rw [hcs] at h; exact absurd h (by simp)
    · rw [hcs] at h
      rcases hrest : resolveSchemaSets package rest with _ | csets
      · rw [hrest] at h; exact absurd h (by simp)
      · rw [hrest] at h
        obtain ⟨hlen, hcset⟩ := ConflictSet.tryFrom_ok_inv hcs
        obtain ⟨hmap, hall⟩ := resolveSchemaSets_some_inv package rest csets hrest
        have hsets : sets = cset :: csets := by
          simpa using h.symm
        subst hsets hcset hmap
        refine ⟨by simp, ?_⟩
        intro t ht
        rcases List.mem_cons.mp ht with h1 | h2
        · subst h1; simpa using hlen
        · exact hall t h2

/-! ### Claims -/

/-- C1: for every public construction path of a conflict set named by the
claim — the fallible constructor from a sequence, deserialization, the
two-item pair constructor, and conversion from the schema form — the resulting
set has at least two items, and a sequence of 0 or 1 items is always rejected
with an error; likewise for the SchemaConflictSet paths. -/
theorem claim1_construction_paths_min_two :
    (∀ (items : List ConflictItem) (s : ConflictSet),
      ConflictSet.tryFrom items = .ok s → 2 ≤ s.items.length) ∧
    (∀ items : List ConflictItem, items.length ≤ 1 →
      ∃ e, ConflictSet.tryFrom items = .error e) ∧
    (∀ item1 item2 : ConflictItem, 2 ≤ (ConflictSet.pair item1 item2).items.length) ∧
    (∀ (wires : List ConflictItemWire) (s : ConflictSet),
      ConflictSet.deserializeWires wires = .ok s → 2 ≤ s.items.length) ∧
    (∀ (sc : SchemaConflicts) (package : PackageName) (c : Conflicts),
      sc.toConflictsWithPackageName package = some c → ∀ s ∈ c.sets, 2 ≤ s.items.length) ∧
    (∀ (items : List SchemaConflictItem) (s : SchemaConflictSet),
      SchemaConflictSet.tryFrom items = .ok s → 2 ≤ s.items.length) ∧
    (∀ items : List SchemaConflictItem, items.length ≤ 1 →
      ∃ e, SchemaConflictSet.tryFrom items = .error e) ∧
    (∀ (wires : List ConflictItemWire) (s : SchemaConflictSet),
      SchemaConflictSet.deserializeWires wires = .ok s → 2 ≤ s.items.length) := by
  refine ⟨?_, ?_, ?_, ?_, ?_, ?_, ?_, ?_⟩
  · intro items s h
    obtain ⟨hlen, hs⟩ := ConflictSet.tryFrom_ok_inv h
    subst hs; simpa using hlen
  · intro items h
    unfold ConflictSet.tryFrom
    by_cases h0 : items.length = 0
    · exact ⟨.ZeroItems, by rw [if_pos h0]⟩
    · have h1 : items.length = 1 := by omega
      exact ⟨.OneItem, by rw [if_neg h0, if_pos h1]⟩
  · intro item1 item2
    simp [ConflictSet.pair]
  · intro wires s h
    unfold ConflictSet.deserializeWires at h
    rcases hw : tryItemsFromWires wires with e | items
    · rw [hw] at h; exact absurd h (by simp)
    · rw [hw] at h
      obtain ⟨hlen, hs⟩ := ConflictSet.tryFrom_ok_inv h
      subst hs; simpa using hlen
  · intro sc package c h
    unfold SchemaConflicts.toConflictsWithPackageName at h
    rcases hr : resolveSchemaSets package sc.sets with _ | sets
    · rw [hr] at h; exact absurd h (by simp)
    · rw [hr] at h
      obtain ⟨hmap, hall⟩ := resolveSchemaSets_some_inv package sc.sets sets hr
      have hc := (Option.some.inj h).symm
      subst hc
      intro s hs
      rw [hmap] at hs
      obtain ⟨t, ht, hts⟩ := List.mem_map.mp hs
      rw [← hts]
      simpa using hall t ht
  · intro items s h
    obtain ⟨hlen, hs⟩ := SchemaConflictSet.schemaTryFrom_ok_inv h
    subst hs; simpa using hlen
  · intro items h
    unfold SchemaConflictSet.tryFrom
    by_cases h0 : items.length = 0
    · exact ⟨.ZeroItems, by rw [if_pos h0]⟩
    · have h1 : items.length = 1 := by omega
      exact ⟨.OneItem, by rw [if_neg h0, if_pos h1]⟩
  · intro wires s h
    unfold SchemaConflictSet.deserializeWires at h
    rcases hw : trySchemaItemsFromWires wires with e | items
    · rw [hw] at h; exact absurd h (by simp)
    · rw [hw] at h
      obtain ⟨hlen, hs⟩ := SchemaConflictSet.schemaTryFrom_ok_inv h
      subst hs; simpa using hlen

/-- C1 witness: the construction paths evaluated at concrete inputs. -/
theorem claim1_witness :
    (∃ e, ConflictSet.tryFrom [sampleItemA] = .error e) ∧
    2 ≤ (ConflictSet.pair sampleItemA sampleItemB).items.length ∧
    2 ≤ (ConflictSet.mk [sampleItemA, sampleItemB]).items.length ∧
    2 ≤ (ConflictSet.mk [sampleItemB, sampleItemA]).items.length ∧
    2 ≤ (ConflictSet.mk [sampleSchemaItemX.resolve samplePackageA,
          sampleSchemaItemY.resolve samplePackageA]).items.length ∧
    (∃ e, SchemaConflictSet.tryFrom [sampleSchemaItemX] = .error e) ∧
    2 ≤ (SchemaConflictSet.mk [sampleSchemaItemX, sampleSchemaItemY]).items.length ∧
    2 ≤ (SchemaConflictSet.mk [sampleSchemaItemY, sampleSchemaItemX]).items.length := by
  refine ⟨?_, ?_, ?_, ?_, ?_, ?_, ?_, ?_⟩
  · exact claim1_construction_paths_min_two.2.1 [sampleItemA] (by decide)
  · exact claim1_construction_paths_min_two.2.2.1 sampleItemA sampleItemB
  · exact claim1_construction_paths_min_two.1 [sampleItemA, sampleItemB] _ rfl
  · exact claim1_construction_paths_min_two.2.2.2.1
      [sampleItemB.intoWire, sampleItemA.intoWire] _ rfl
  · exact claim1_construction_paths_min_two.2.2.2.2.1
      { sets := [{ items := [sampleSchemaItemX, sampleSchemaItemY] }] }
      samplePackageA
      { sets := [{ items := [sampleSchemaItemX.resolve samplePackageA,
          sampleSchemaItemY.resolve samplePackageA] }] }
      rfl _ (by simp)
  · exact claim1_construction_paths_min_two.2.2.2.2.2.2.1 [sampleSchemaItemX] (by decide)
  · exact claim1_construction_paths_min_two.2.2.2.2.2.1
      [sampleSchemaItemX, sampleSchemaItemY] _ rfl
  · exact claim1_construction_paths_min_two.2.2.2.2.2.2.2
      [sampleSchemaItemY.intoWire, sampleSchemaItemX.intoWire] _ rfl

/-- C2 counterexample: a wire record with package absent and with both extra
and group present converts to the internal item with error MissingPackage
(the package check runs first), not FoundExtraAndGroup as the claim states
should happen regardless of whether package is present or absent. -/
theorem claim2_counterexample :
    ConflictItem.tryFrom
        { package := none, extra := some sampleExtraX, group := some sampleGroupG } =
      .error .MissingPackage ∧
    (Except.error ConflictError.MissingPackage :
        Except ConflictError ConflictItem) ≠ .error .FoundExtraAndGroup :=
  ⟨rfl, by simp⟩

/-- C2 (amended): the both/neither rules hold for the schema conversion on
every wire record, independent of package; for the internal conversion they
hold whenever package is present, and when package is absent the internal
conversion fails with MissingPackage regardless of extra/group. -/
theorem claim2_wire_validation_amended :
    (∀ (w : ConflictItemWire) (e : ExtraName) (g : GroupName),
      w.extra = some e → w.group = some g →
      SchemaConflictItem.tryFrom w = .error .FoundExtraAndGroup) ∧
    (∀ w : ConflictItemWire, w.extra = none → w.group = none →
      SchemaConflictItem.tryFrom w = .error .MissingExtraAndGroup) ∧
    (∀ (w : ConflictItemWire) (p : PackageName) (e : ExtraName) (g : GroupName),
      w.package = some p → w.extra = some e → w.group = some g →
      ConflictItem.tryFrom w = .error .FoundExtraAndGroup) ∧
    (∀ (w : ConflictItemWire) (p : PackageName), w.package = some p →
      w.extra = none → w.group = none →
      ConflictItem.tryFrom w = .error .MissingExtraAndGroup) ∧
    (∀ w : ConflictItemWire, w.package = none →
      ConflictItem.tryFrom w = .error .MissingPackage) := by
  refine ⟨?_, ?_, ?_, ?_, ?_⟩
  · intro w e g he hg
    rcases w with ⟨wp, we, wg⟩
    simp only at he hg
    subst he; subst hg
    rfl
  · intro w he hg
    rcases w with ⟨wp, we, wg⟩
    simp only at he hg
    subst he; subst hg
    rfl
  · intro w p e g hp he hg
    rcases w with ⟨wp, we, wg⟩
    simp only at hp he hg
    subst hp; subst he; subst hg
    rfl
  · intro w p hp he hg
    rcases w with ⟨wp, we, wg⟩
    simp only at hp he hg
    subst hp; subst he; subst hg
    rfl
  · intro w hp
    rcases w with ⟨wp, we, wg⟩
    simp only at hp
    subst hp
    rfl

/-- C2 witness: each amended validation rule evaluated at a concrete wire. -/
theorem claim2_witness :
    SchemaConflictItem.tryFrom
        { package := none, extra := some sampleExtraX, group := some sampleGroupG } =
      .error .FoundExtraAndGroup ∧
    SchemaConflictItem.tryFrom
        { package := some samplePackageA, extra := none, group := none } =
      .error .MissingExtraAndGroup ∧
    ConflictItem.tryFrom
        { package := some samplePackageA, extra := some sampleExtraX,
          group := some sampleGroupG } =
      .error .FoundExtraAndGroup ∧
    ConflictItem.tryFrom
        { package := some samplePackageA, extra := none, group := none } =
      .error .MissingExtraAndGroup ∧
    ConflictItem.tryFrom { package := none, extra := none, group := none } =
      .error .MissingPackage :=
  ⟨claim2_wire_validation_amended.1 _ sampleExtraX sampleGroupG rfl rfl,
   claim2_wire_validation_amended.2.1 _ rfl rfl,
   claim2_wire_validation_amended.2.2.1 _ samplePackageA sampleExtraX sampleGroupG rfl rfl rfl,
   claim2_wire_validation_amended.2.2.2.1 _ samplePackageA rfl rfl rfl,
   claim2_wire_validation_amended.2.2.2.2 _ rfl⟩

/-- C3: schema-to-internal resolution is infallible: for every SchemaConflicts
whose sets were validated to hold at least two items and every default package
name, to_conflicts_with_package_name succeeds — the modelled panic path of the
internal `ConflictSet::try_from(..).unwrap()` (`none`) is never taken. -/
theorem claim3_resolution_infallible :
    ∀ (sc : SchemaConflicts) (package : PackageName),
      (∀ s ∈ sc.sets, 2 ≤ s.items.length) →
      ∃ c, sc.toConflictsWithPackageName package = some c := by
  intro sc package h
  refine ⟨{ sets := sc.sets.map fun s =>
    { items := s.items.map fun item => item.resolve package } }, ?_⟩
  unfold SchemaConflicts.toConflictsWithPackageName
  rw [resolveSchemaSets_eq_some package sc.sets h]

/-- C3 witness: resolution of a concrete validated SchemaConflicts value. -/
theorem claim3_witness :
    ∃ c, SchemaConflicts.toConflictsWithPackageName
        { sets := [{ items := [sampleSchemaItemX, sampleSchemaItemY] }] }
        samplePackageA = some c :=
  claim3_resolution_infallible
    { sets := [{ items := [sampleSchemaItemX, sampleSchemaItemY] }] }
    samplePackageA
    (by intro s hs; simp only [List.mem_singleton] at hs; subst hs; decide)

/-- C4: constructing a conflict set from a sequence of length 0 fails with
exactly ZeroItems, length 1 with exactly OneItem, and any length >= 2 succeeds
with the items kept exactly as given (no deduplication, no canonicalization),
for both the internal and the schema constructors. -/
theorem claim4_tryfrom_lengths :
    ∀ (items : List ConflictItem) (sitems : List SchemaConflictItem),
      (items.length = 0 → ConflictSet.tryFrom items = .error .ZeroItems) ∧
      (items.length = 1 → ConflictSet.tryFrom items = .error .OneItem) ∧
      (2 ≤ items.length → ConflictSet.tryFrom items = .ok { items := items }) ∧
      (sitems.length = 0 → SchemaConflictSet.tryFrom sitems = .error .ZeroItems) ∧
      (sitems.length = 1 → SchemaConflictSet.tryFrom sitems = .error .OneItem) ∧
      (2 ≤ sitems.length → SchemaConflictSet.tryFrom sitems = .ok { items := sitems }) := by
  intro items sitems
  refine ⟨?_, ?_, ?_, ?_, ?_, ?_⟩
  · intro h; unfold ConflictSet.tryFrom; rw [if_pos h]
  · intro h; unfold ConflictSet.tryFrom; rw [if_neg (by omega), if_pos h]
  · exact ConflictSet.tryFrom_eq_ok items
  · intro h; unfold SchemaConflictSet.tryFrom; rw [if_pos h]
  · intro h; unfold SchemaConflictSet.tryFrom; rw [if_neg (by omega), if_pos h]
  · exact SchemaConflictSet.schemaTryFrom_eq_ok sitems

/-- C4 witness: the three length regimes evaluated at concrete sequences,
including a duplicated-item sequence accepted unchanged. -/
theorem claim4_witness :
    ConflictSet.tryFrom [] = .error .ZeroItems ∧
    ConflictSet.tryFrom [sampleItemA] = .error .OneItem ∧
    ConflictSet.tryFrom [sampleItemA, sampleItemA] =
      .ok { items := [sampleItemA, sampleItemA] } ∧
    SchemaConflictSet.tryFrom [] = .error .ZeroItems ∧
    SchemaConflictSet.tryFrom [sampleSchemaItemX] = .error .OneItem ∧
    SchemaConflictSet.tryFrom [sampleSchemaItemX, sampleSchemaItemY] =
      .ok { items := [sampleSchemaItemX, sampleSchemaItemY] } :=
  ⟨(claim4_tryfrom_lengths [] []).1 rfl,
   (claim4_tryfrom_lengths [sampleItemA] []).2.1 rfl,
   (claim4_tryfrom_lengths [sampleItemA, sampleItemA] []).2.2.1 (by decide),
   (claim4_tryfrom_lengths [] []).2.2.2.1 rfl,
   (claim4_tryfrom_lengths [] [sampleSchemaItemX]).2.2.2.2.1 rfl,
   (claim4_tryfrom_lengths [] [sampleSchemaItemX, sampleSchemaItemY]).2.2.2.2.2 (by decide)⟩

/-- C5: resolution maps each schema item to the internal item whose package is
the item's own package when present (ignoring the supplied default) and
exactly the supplied default otherwise, with the kind and the order of items
and sets preserved. -/
theorem claim5_resolution_mapping :
    (∀ (item : SchemaConflictItem) (dflt p : PackageName),
      item.package = some p → (item.resolve dflt).package = p) ∧
    (∀ (item : SchemaConflictItem) (dflt : PackageName),
      item.package = none → (item.resolve dflt).package = dflt) ∧
    (∀ (item : SchemaConflictItem) (dflt : PackageName),
      (item.resolve dflt).kind = item.kind) ∧
    (∀ (sc : SchemaConflicts) (dflt : PackageName) (c : Conflicts),
      sc.toConflictsWithPackageName dflt = some c →
      c.sets = sc.sets.map fun s =>
        { items := s.items.map fun item => item.resolve dflt }) := by
  refine ⟨?_, ?_, ?_, ?_⟩
  · intro item dflt p h
    simp [SchemaConflictItem.resolve, h]
  · intro item dflt h
    simp [SchemaConflictItem.resolve, h]
  · intro item dflt
    rfl
  · intro sc dflt c h
    unfold SchemaConflicts.toConflictsWithPackageName at h
    rcases hr : resolveSchemaSets dflt sc.sets with _ | sets
    · rw [hr] at h; exact absurd h (by simp)
    · rw [hr] at h
      obtain ⟨hmap, _⟩ := resolveSchemaSets_some_inv dflt sc.sets sets hr
      have hc := (Option.some.inj h).symm
      subst hc
      exact hmap

/-- C5 witness: the resolution mapping evaluated on a concrete schema value
mixing an explicit-package item with a package-less item. -/
theorem claim5_witness :
    (sampleSchemaItemY.resolve samplePackageA).package = samplePackageB ∧
    (sampleSchemaItemX.resolve samplePackageA).package = samplePackageA ∧
    (sampleSchemaItemX.resolve samplePackageA).kind = sampleSchemaItemX.kind ∧
    (Conflicts.mk [{ items := [sampleSchemaItemX.resolve samplePackageA,
        sampleSchemaItemY.resolve samplePackageA] }]).sets =
      (SchemaConflicts.mk [{ items := [sampleSchemaItemX, sampleSchemaItemY] }]).sets.map
        fun s => { items := s.items.map fun item => item.resolve samplePackageA } :=
  ⟨claim5_resolution_mapping.1 sampleSchemaItemY samplePackageA samplePackageB rfl,
   claim5_resolution_mapping.2.1 sampleSchemaItemX samplePackageA rfl,
   claim5_resolution_mapping.2.2.1 sampleSchemaItemX samplePackageA,
   claim5_resolution_mapping.2.2.2
     { sets := [{ items := [sampleSchemaItemX, sampleSchemaItemY] }] }
     samplePackageA
     { sets := [{ items := [sampleSchemaItemX.resolve samplePackageA,
         sampleSchemaItemY.resolve samplePackageA] }] }
     rfl⟩

/-- C6: serialization round-trips: converting a valid internal item to the
wire record and back yields an equal item; the same holds for schema items,
and consequently for conflict sets and whole conflicts collections (whose sets
satisfy the length invariant) at both levels. -/
theorem claim6_roundtrip :
    (∀ item : ConflictItem, ConflictItem.tryFrom item.intoWire = .ok item) ∧
    (∀ item : SchemaConflictItem, SchemaConflictItem.tryFrom item.intoWire = .ok item) ∧
    (∀ s : ConflictSet, 2 ≤ s.items.length →
      ConflictSet.deserializeWires s.serializeWires = .ok s) ∧
    (∀ s : SchemaConflictSet, 2 ≤ s.items.length →
      SchemaConflictSet.deserializeWires s.serializeWires = .ok s) ∧
    (∀ c : Conflicts, (∀ s ∈ c.sets, 2 ≤ s.items.length) →
      Conflicts.deserializeWires c.serializeWires = .ok c) ∧
    (∀ sc : SchemaConflicts, (∀ s ∈ sc.sets, 2 ≤ s.items.length) →
      SchemaConflicts.deserializeWires sc.serializeWires = .ok sc) := by
  refine ⟨ConflictItem.tryFrom_intoWire, SchemaConflictItem.schemaTryFrom_intoWire,
    ConflictSet.deserialize_serialize, SchemaConflictSet.schemaDeserialize_serialize, ?_, ?_⟩
  · intro c h
    rcases c with ⟨sets⟩
    simp only [Conflicts.deserializeWires, Conflicts.serializeWires]
    rw [trySetsFromWires_map_serialize sets (by simpa using h)]
  · intro sc h
    rcases sc with ⟨sets⟩
    simp only [SchemaConflicts.deserializeWires, SchemaConflicts.serializeWires]
    rw [trySchemaSetsFromWires_map_serialize sets (by simpa using h)]

/-- C6 witness: the round-trips evaluated at concrete items, sets and
collections. -/
theorem claim6_witness :
    ConflictItem.tryFrom sampleItemA.intoWire = .ok sampleItemA ∧
    SchemaConflictItem.tryFrom sampleSchemaItemY.intoWire = .ok sampleSchemaItemY ∧
    ConflictSet.deserializeWires (ConflictSet.pair sampleItemA sampleItemB).serializeWires =
      .ok (ConflictSet.pair sampleItemA sampleItemB) ∧
    SchemaConflictSet.deserializeWires
        (SchemaConflictSet.mk [sampleSchemaItemX, sampleSchemaItemY]).serializeWires =
      .ok (SchemaConflictSet.mk [sampleSchemaItemX, sampleSchemaItemY]) ∧
    Conflicts.deserializeWires
        (Conflicts.mk [ConflictSet.pair sampleItemA sampleItemB]).serializeWires =
      .ok (Conflicts.mk [ConflictSet.pair sampleItemA sampleItemB]) ∧
    SchemaConflicts.deserializeWires
        (SchemaConflicts.mk
          [SchemaConflictSet.mk [sampleSchemaItemX, sampleSchemaItemY]]).serializeWires =
      .ok (SchemaConflicts.mk
        [SchemaConflictSet.mk [sampleSchemaItemX, sampleSchemaItemY]]) := by
  refine ⟨?_, ?_, ?_, ?_, ?_, ?_⟩
  · exact claim6_roundtrip.1 sampleItemA
  · exact claim6_roundtrip.2.1 sampleSchemaItemY
  · exact claim6_roundtrip.2.2.1 _ (by decide)
  · exact claim6_roundtrip.2.2.2.1 _ (by decide)
  · exact claim6_roundtrip.2.2.2.2.1 _
      (by intro s hs; simp only [Conflicts.mk, List.mem_singleton] at hs; subst hs; decide)
  · exact claim6_roundtrip.2.2.2.2.2 _
      (by intro s hs; simp only [SchemaConflicts.mk, List.mem_singleton] at hs; subst hs; decide)

/-- C7: append is draining: after appending B onto A, A's sets are A's
original sets followed by B's in order and B is empty; appending the empty
Conflicts leaves the target unchanged; and Conflicts::empty() is empty. -/
theorem claim7_append_drains :
    (∀ a b : Conflicts,
      (a.append b).1.sets = a.sets ++ b.sets ∧ (a.append b).2.isEmpty = true) ∧
    (∀ x : Conflicts, (x.append Conflicts.empty).1 = x) ∧
    Conflicts.empty.isEmpty = true := by
  refine ⟨fun a b => ⟨rfl, rfl⟩, ?_, rfl⟩
  intro x
  rcases x with ⟨sets⟩
  simp [Conflicts.append, Conflicts.empty, Conflicts.defaultValue]

/-- C8 (code defect): a record with the unknown field `bogus` deserializes
successfully into both item forms. The `deny_unknown_fields` attribute sits on
`ConflictItem`/`SchemaConflictItem`, whose derived deserializers only forward
to `ConflictItemWire` via `try_from`, where the attribute has no effect; the
wire struct's own derive skips unknown keys, so they are ignored rather than
rejected as the spec requires. -/
theorem claim8_unknown_field_accepted :
    ConflictItem.deserializeFields
        [("package", "a"), ("extra", "x"), ("bogus", "v")] =
      .ok { package := { name := "a" }, kind := .Extra { name := "x" } } ∧
    SchemaConflictItem.deserializeFields [("extra", "x"), ("bogus", "v")] =
      .ok { package := none, kind := .Extra { name := "x" } } :=
  ⟨rfl, rfl⟩

/-- C9: the borrowed and owned lookup paths agree: a borrowed item is
equivalent to an owned item exactly when their packages and kinds compare
equal (i.e. iff as_ref of the owned item equals the borrowed one), and the
containment queries of ConflictSet and Conflicts find an owned item exactly
when that structural comparison succeeds. -/
theorem claim9_equivalent_contains_agree :
    (∀ (i : ConflictItem) (r : ConflictItemRef),
      r.equivalent i = true ↔ i.asRef = r) ∧
    (∀ (i : ConflictItem) (r : ConflictItemRef),
      r.equivalent i = true ↔ (i.package = r.package ∧ i.kind.asRef = r.kind)) ∧
    (∀ (s : ConflictSet) (r : ConflictItemRef),
      s.contains r.package r.kind = true ↔ ∃ i ∈ s.items, r.equivalent i = true) ∧
    (∀ (c : Conflicts) (r : ConflictItemRef),
      c.contains r.package r.kind = true ↔
        ∃ set ∈ c.sets, ∃ i ∈ set.items, r.equivalent i = true) := by
  have hiff : ∀ (i : ConflictItem) (r : ConflictItemRef),
      r.equivalent i = true ↔ (i.package = r.package ∧ i.kind.asRef = r.kind) := by
    intro i r
    rcases r with ⟨rp, rk⟩
    simp [ConflictItemRef.equivalent, ConflictItem.asRef, ConflictItemRef.mk.injEq]
  have hset : ∀ (s : ConflictSet) (r : ConflictItemRef),
      s.contains r.package r.kind = true ↔ ∃ i ∈ s.items, r.equivalent i = true := by
    intro s r
    simp only [ConflictSet.contains, List.any_eq_true, Bool.and_eq_true, decide_eq_true_eq]
    constructor
    · rintro ⟨i, hi, h1, h2⟩
      exact ⟨i, hi, (hiff i r).mpr ⟨h1, h2⟩⟩
    · rintro ⟨i, hi, h⟩
      obtain ⟨h1, h2⟩ := (hiff i r).mp h
      exact ⟨i, hi, h1, h2⟩
  refine ⟨?_, hiff, hset, ?_⟩
  · intro i r
    simp [ConflictItemRef.equivalent]
  · intro c r
    simp only [Conflicts.contains, List.any_eq_true]
    constructor
    · rintro ⟨set, hmem, h⟩
      exact ⟨set, hmem, (hset set r).mp h⟩
    · rintro ⟨set, hmem, h⟩
      exact ⟨set, hmem, (hset set r).mpr h⟩

/-- C10: the derived Default construction yields a conflict set with zero
items for both ConflictSet and SchemaConflictSet, a value the fallible
constructor itself would reject with ZeroItems. -/
theorem claim10_default_zero_items :
    ConflictSet.defaultValue.items.length = 0 ∧
    SchemaConflictSet.defaultValue.items.length = 0 ∧
    ConflictSet.tryFrom ConflictSet.defaultValue.items = .error .ZeroItems ∧
    SchemaConflictSet.tryFrom SchemaConflictSet.defaultValue.items = .error .ZeroItems :=
  ⟨rfl, rfl, rfl, rfl⟩
